import Mathlib

/-!
Shallow embedding of `bioimageio_chatbot/chatbot_extensions/docs_extension.py`
(the document-retrieval extension): the data model (`DocWithScore`,
`DocumentRetrievalInput`), the schema advertiser (`get_schema`) and the
fan-out/fan-in search coordinator (`run_extension`).

Modelling conventions:
* Python floats (relevance scores) are modelled as `ℚ`; the code only compares
  and sorts scores, never does float-specific arithmetic.
* Python dict iteration order (insertion order, Python ≥ 3.7) is modelled by a
  `List`: `docs_store_dict` joined with its manifest record per key becomes
  `List Channel`.  This models the configured case where every store key is
  present in the manifest (otherwise line 52 raises `KeyError`, a startup
  `ConfigurationError` per the spec, which no claim exercises).
* A store's `asimilarity_search_with_relevance_scores(query, k)` coroutine is a
  function `String → ℤ → Except String (List (Doc × ℚ))`; `asyncio.gather`
  with default `return_exceptions=False` is `gatherResults`, which propagates
  an error iff some call errored and otherwise collects every result in order.
* Raising an exception is modelled by `Except.error`.  The debug print at
  lines 72–75 indexes `docs_with_score[0]`, `[1]` and `[2]` whenever the list
  is non-empty, so it raises `IndexError` when the merged list has length 1 or
  2; `previewPrint` models exactly that.
* `req.top_k = max(1, min(req.top_k, 15))` (line 48) mutates the caller's
  request object; `run_extension` therefore returns the final request state
  alongside the result.
-/

namespace DocsExtension

/-- The `doc` objects returned by a vector store: `page_content` plus a
metadata mapping (modelled as an association list). -/
structure Doc where
  page_content : String
  metadata : List (String × String)
deriving DecidableEq, Repr

/-- Embedding of the pydantic model `DocWithScore` (lines 11–20). -/
structure DocWithScore where
  doc : String
  score : ℚ
  metadata : List (String × String)
  base_url : Option String
deriving DecidableEq, Repr

/-- Embedding of the pydantic model `DocumentRetrievalInput` (lines 22–30):
`query` and `top_k` (default 3 on the Python side; the default plays no role
in the embedded code paths). -/
structure DocumentRetrievalInput where
  query : String
  top_k : ℤ
deriving DecidableEq, Repr

/-- One registered collection: an entry of `docs_store_dict` joined with its
manifest record (lines 49–53 look the manifest record up by `channel_id`).
`store` is the collection's `asimilarity_search_with_relevance_scores`. -/
structure Channel where
  id : String
  base_url : Option String
  store : String → ℤ → Except String (List (Doc × ℚ))

/-- Line 48: `req.top_k = max(1, min(req.top_k, 15))`. -/
def clampTopK (k : ℤ) : ℤ := max 1 (min k 15)

/-- The arguments of one similarity-search call issued by the loop body
(line 55–57): the channel it is issued against, the query and the `k`. -/
structure SearchCall where
  channel_id : String
  query : String
  k : ℤ
deriving DecidableEq, Repr

/-- The calls issued by the loop at lines 49–57: one per entry of
`docs_store_dict`, in iteration order, each with `query=req.query` and
`k=req.top_k` (already clamped at line 48). -/
def issuedCalls (registry : List Channel) (req : DocumentRetrievalInput) :
    List SearchCall :=
  registry.map (fun ch => ⟨ch.id, req.query, clampTopK req.top_k⟩)

/-- The per-channel coroutine results: each channel's store applied to the
query and the clamped `k` (line 55–57). -/
def storeResults (registry : List Channel) (query : String) (k : ℤ) :
    List (Except String (List (Doc × ℚ))) :=
  registry.map (fun ch => ch.store query k)

/-- `asyncio.gather(*channel_results)` (line 59) with the default
`return_exceptions=False`: if every coroutine succeeds it returns the list of
all results in order; if some coroutine raises, the exception propagates (in
this deterministic model, the first error in list order). -/
def gatherResults {α : Type} :
    List (Except String α) → Except String (List α)
  | [] => Except.ok []
  | r :: rs =>
    match r with
    | Except.error e => Except.error e
    | Except.ok v =>
      match gatherResults rs with
      | Except.error e => Except.error e
      | Except.ok vs => Except.ok (v :: vs)

/-- The list comprehension at lines 62–68: flatten every `(doc, score)` pair of
every channel's result list, in channel-major order, into `DocWithScore`
values.  Crucially, the `base_url` used is the single Python variable left
over from the loop at lines 49–57, i.e. the *last* channel's `base_url` — the
same for every document. -/
def flattenResults (channel_results : List (List (Doc × ℚ)))
    (base_url : Option String) : List DocWithScore :=
  (channel_results.map (fun results_with_scores =>
    results_with_scores.map (fun p =>
      { doc := p.1.page_content, score := p.2, metadata := p.1.metadata,
        base_url := base_url }))).flatten

/-- The sort order of line 70: `key=lambda x: x.score, reverse=True`, i.e.
`a` may come before `b` iff `a.score ≥ b.score`. -/
def docGE (a b : DocWithScore) : Prop := b.score ≤ a.score

instance : DecidableRel docGE := fun a b =>
  inferInstanceAs (Decidable (b.score ≤ a.score))

instance : IsTotal DocWithScore docGE :=
  ⟨fun a b => le_total b.score a.score⟩

instance : IsTrans DocWithScore docGE :=
  ⟨fun _ _ _ h1 h2 => le_trans h2 h1⟩

/-- Python's `sorted(..., key=lambda x: x.score, reverse=True)` (line 70): a
stable sort into descending score order.  Stable insertion sort produces the
same list as any stable sort for the same total preorder, so this is a
faithful model of Timsort's output. -/
def sortDocs (docs : List DocWithScore) : List DocWithScore :=
  List.insertionSort docGE docs

/-- Line 70: stable-sort descending by score, then `[:req.top_k]`. -/
def mergeAndRank (docs : List DocWithScore) (k : ℤ) : List DocWithScore :=
  (sortDocs docs).take k.toNat

/-- Lines 72–75: when the ranked list is non-empty the debug print reads
`docs_with_score[0]`, `[1]` and `[2]`; with only 1 or 2 results this raises
`IndexError`.  Otherwise the list is returned unchanged (line 76). -/
def previewPrint (docs : List DocWithScore) :
    Except String (List DocWithScore) :=
  if 0 < docs.length ∧ docs.length < 3 then Except.error "IndexError"
  else Except.ok docs

/-- Embedding of `run_extension` (lines 44–76).  Returns the final state of
the (mutated) request object together with the result: the ranked document
list, or the propagated exception. -/
def run_extension (registry : List Channel) (req : DocumentRetrievalInput) :
    DocumentRetrievalInput × Except String (List DocWithScore) :=
  let req' : DocumentRetrievalInput :=
    { query := req.query, top_k := clampTopK req.top_k }
  let lastBaseUrl : Option String :=
    (registry.getLast?).bind (fun ch => ch.base_url)
  let result :=
    match gatherResults (storeResults registry req'.query req'.top_k) with
    | Except.error e => Except.error e
    | Except.ok channel_results =>
        previewPrint (mergeAndRank (flattenResults channel_results lastBaseUrl)
          req'.top_k)
  (req', result)

/-- One manifest entry as consumed by `get_schema` (lines 32–41): a channel
`name` and `description`. -/
structure ChannelDesc where
  name : String
  description : String
deriving DecidableEq, Repr

/-- Lines 34–39: the markdown enumeration, one `- name: description` line per
channel. -/
def channel_info (channels : List ChannelDesc) : String :=
  String.intercalate "\n"
    (channels.map (fun channel =>
      "- " ++ channel.name ++ ": " ++ channel.description))

/-- Line 40: the docstring written onto the shared `DocumentRetrievalInput`
class. -/
def docstringFor (channels : List ChannelDesc) : String :=
  "Searching knowledge base for relevant documents. The available documentations are:\n"
    ++ channel_info channels

/-- A pydantic `.schema()` result, reduced to the parts the embedding needs:
the class docstring (emitted as the schema's `description`) and the two
declared fields. -/
structure Schema where
  description : String
  fields : List String
deriving DecidableEq, Repr

/-- Embedding of `get_schema` (lines 32–41).  The docstring of the shared
`DocumentRetrievalInput` class is global mutable state, threaded here as an
explicit `docState`; each call overwrites it (line 40) and then returns
`DocumentRetrievalInput.schema()`, which embeds the just-written docstring. -/
def get_schema (channels : List ChannelDesc) (_docState : String) :
    String × Schema :=
  let newDoc := docstringFor channels
  (newDoc, { description := newDoc, fields := ["query", "top_k"] })

/-- Projects the exception payload of a result, `none` on success. -/
def errOf {α : Type} : Except String α → Option String
  | Except.error e => some e
  | Except.ok _ => none

/-!
Concrete fixtures used to evaluate the embedded code on the inputs named by
the claims.  Scores are written as already-reduced rationals: `q09` is 0.9,
`q08` is 0.8, `q07` is 0.7, `q06` is 0.6, `q05` is 0.5.
-/

def q09 : ℚ := ⟨9, 10, by decide, by decide⟩
def q08 : ℚ := ⟨4, 5, by decide, by decide⟩
def q07 : ℚ := ⟨7, 10, by decide, by decide⟩
def q06 : ℚ := ⟨3, 5, by decide, by decide⟩
def q05 : ℚ := ⟨1, 2, by decide, by decide⟩

/-- Fixture: collection `A` with its own base URL, returning three scored
documents for any query. -/
def c1ChA : Channel :=
  ⟨"A", some "https://a.example", fun _ _ => Except.ok
    [(⟨"alpha1", []⟩, q09), (⟨"alpha2", []⟩, q07), (⟨"alpha3", []⟩, q06)]⟩

/-- Fixture: collection `B` with a different base URL, returning one scored
document for any query. -/
def c1ChB : Channel :=
  ⟨"B", some "https://b.example", fun _ _ => Except.ok [(⟨"beta1", []⟩, q05)]⟩

/-- Fixture: a single collection returning four documents, with a score tie
between the first and the third. -/
def c2Ch : Channel :=
  ⟨"W", some "https://w.example", fun _ _ => Except.ok
    [(⟨"w1", []⟩, q05), (⟨"w2", []⟩, q09), (⟨"w3", []⟩, q05),
     (⟨"w4", []⟩, q07)]⟩

/-- The ranked output of `run_extension [c2Ch] ⟨"q", 5⟩`: descending scores,
the `q05` tie kept in discovery order (`w1` before `w3`). -/
def c2Out : List DocWithScore :=
  [⟨"w2", q09, [], some "https://w.example"⟩,
   ⟨"w4", q07, [], some "https://w.example"⟩,
   ⟨"w1", q05, [], some "https://w.example"⟩,
   ⟨"w3", q05, [], some "https://w.example"⟩]

/-- A candidate list with a score tie, used to instantiate the stability
part of the merge claim. -/
def c2Docs : List DocWithScore :=
  [⟨"x", q05, [], none⟩, ⟨"y", q09, [], none⟩, ⟨"z", q05, [], none⟩]

/-- Fixture: a collection whose store always succeeds with one document. -/
def c4Ch : Channel := ⟨"W", none, fun _ _ => Except.ok [(⟨"w", []⟩, q05)]⟩

/-- Fixture: the per-collection result list of `c4Ch`'s store. -/
def c4Results : List (List (Doc × ℚ)) := [[(⟨"w", []⟩, q05)]]

/-- Fixture: collection `A` of the empty-result scenario. -/
def c5ChEmpty : Channel := ⟨"A", none, fun _ _ => Except.ok []⟩

/-- Fixture: a collection returning a single scored document. -/
def c5ChOne : Channel :=
  ⟨"A", none, fun _ _ => Except.ok [(⟨"only", []⟩, q09)]⟩

/-- Fixture: collection `A` of the end-to-end scenario, returning
`[(d1, 0.9), (d2, 0.5)]`. -/
def c6ChA : Channel :=
  ⟨"A", some "https://a.example", fun _ _ => Except.ok
    [(⟨"d1", []⟩, q09), (⟨"d2", []⟩, q05)]⟩

/-- Fixture: collection `B` of the end-to-end scenario, returning
`[(d3, 0.8)]`. -/
def c6ChB : Channel :=
  ⟨"B", some "https://b.example", fun _ _ => Except.ok [(⟨"d3", []⟩, q08)]⟩

/-- Fixture: a collection whose store succeeds. -/
def c7Good : Channel := ⟨"G", none, fun _ _ => Except.ok [(⟨"g", []⟩, q05)]⟩

/-- Fixture: a collection whose store raises. -/
def c7Bad : Channel := ⟨"B", none, fun _ _ => Except.error "boom"⟩

end DocsExtension

deriving instance DecidableEq for Except

namespace DocsExtension

/-! ### Helper lemmas -/

theorem clampTopK_ge_one (k : ℤ) : 1 ≤ clampTopK k := le_max_left _ _

theorem clampTopK_le_fifteen (k : ℤ) : clampTopK k ≤ 15 :=
  max_le (by norm_num) (min_le_right _ _)

theorem clampTopK_idem (k : ℤ) : clampTopK (clampTopK k) = clampTopK k := by
  simp only [clampTopK]
  omega

theorem sortDocs_sorted (l : List DocWithScore) :
    List.Sorted docGE (sortDocs l) :=
  List.sorted_insertionSort docGE l

theorem mergeAndRank_chain' (docs : List DocWithScore) (k : ℤ) :
    List.Chain' docGE (mergeAndRank docs k) :=
  ((sortDocs_sorted docs).sublist (List.take_sublist _ _)).chain'

theorem mergeAndRank_length_le (docs : List DocWithScore) (k : ℤ) :
    (mergeAndRank docs k).length ≤ k.toNat := by
  simp only [mergeAndRank, List.length_take]
  omega

theorem filter_orderedInsert_score (s : ℚ) (d : DocWithScore)
    (l : List DocWithScore) :
    (List.orderedInsert docGE d l).filter (fun e => decide (e.score = s))
      = (if d.score = s then [d] else [])
          ++ l.filter (fun e => decide (e.score = s)) := by
  induction l with
  | nil => by_cases hd : d.score = s <;> simp [hd]
  | cons b bs ih =>
      by_cases hdb : docGE d b
      · by_cases hd : d.score = s <;>
          simp [List.orderedInsert, hdb, hd, List.filter_cons]
      · by_cases hd : d.score = s <;> by_cases hb : b.score = s
        · exact absurd (le_of_eq (hb.trans hd.symm)) hdb
        · simp [List.orderedInsert, hdb, hd, hb, ih, List.filter_cons]
        · simp [List.orderedInsert, hdb, hd, hb, ih, List.filter_cons]
        · simp [List.orderedInsert, hdb, hd, hb, ih, List.filter_cons]

theorem sortDocs_filter_score (s : ℚ) (l : List DocWithScore) :
    (sortDocs l).filter (fun e => decide (e.score = s))
      = l.filter (fun e => decide (e.score = s)) := by
  induction l with
  | nil => rfl
  | cons a l ih =>
      have ih' : (List.insertionSort docGE l).filter
            (fun e => decide (e.score = s))
          = l.filter (fun e => decide (e.score = s)) := ih
      by_cases ha : a.score = s <;>
        simp [sortDocs, List.insertionSort, filter_orderedInsert_score, ha, ih',
          List.filter_cons]

theorem previewPrint_ok (l out : List DocWithScore)
    (h : previewPrint l = Except.ok out) : out = l := by
  simp only [previewPrint] at h
  split at h
  · cases h
  · cases h; rfl

theorem run_extension_ok_eq (registry : List Channel)
    (req : DocumentRetrievalInput) (out : List DocWithScore)
    (h : (run_extension registry req).2 = Except.ok out) :
    ∃ channel_results,
      gatherResults (storeResults registry req.query (clampTopK req.top_k))
        = Except.ok channel_results
      ∧ out = mergeAndRank
          (flattenResults channel_results
            ((registry.getLast?).bind (fun ch => ch.base_url)))
          (clampTopK req.top_k) := by
  simp only [run_extension] at h
  cases hg : gatherResults (storeResults registry req.query (clampTopK req.top_k)) with
  | error e => rw [hg] at h; cases h
  | ok channel_results =>
      rw [hg] at h
      exact ⟨channel_results, rfl, (previewPrint_ok _ _ h)⟩

theorem gatherResults_eq_ok_iff {α : Type} (rs : List (Except String α))
    (vs : List α) :
    gatherResults rs = Except.ok vs ↔ rs = vs.map Except.ok := by
  induction rs generalizing vs with
  | nil =>
      cases vs <;> simp [gatherResults]
  | cons r rs ih =>
      cases r with
      | error e =>
          cases vs <;> simp [gatherResults]
      | ok v =>
          cases vs with
          | nil =>
              cases hg : gatherResults rs <;> simp [gatherResults, hg]
          | cons w ws =>
              constructor
              · intro h
                simp only [gatherResults] at h
                cases hg : gatherResults rs with
                | error e => rw [hg] at h; cases h
                | ok us =>
                    rw [hg] at h
                    cases h
                    simp [List.map_cons, (ih ws).mp hg]
              · intro h
                simp only [List.map_cons] at h
                obtain ⟨h1, h2⟩ := List.cons.inj h
                cases h1
                simp [gatherResults, (ih ws).mpr h2]

theorem gatherResults_error_mem {α : Type} (rs : List (Except String α))
    (h : rs.any (fun r => (errOf r).isSome) = true) :
    (errOf (gatherResults rs)).isSome = true
    ∧ errOf (gatherResults rs) ∈ rs.map errOf := by
  induction rs with
  | nil => simp at h
  | cons r rs ih =>
      cases r with
      | error e => simp [gatherResults, errOf]
      | ok v =>
          simp only [List.any_cons, errOf, Option.isSome_none,
            Bool.false_or] at h
          obtain ⟨h1, h2⟩ := ih h
          cases hg : gatherResults rs with
          | error e =>
              rw [hg] at h2
              refine ⟨by simp [gatherResults, hg, errOf], ?_⟩
              simp only [gatherResults, hg, List.map_cons]
              exact List.mem_cons_of_mem _ h2
          | ok ws => rw [hg] at h1; simp [errOf] at h1

end DocsExtension

namespace DocsExtension

/-! ### Claim theorems -/

/-- C1: the claim is FALSE on the code — the `base_url` used by the list
comprehension at lines 62–68 is the variable left over from the loop, i.e.
the last channel's.  Here collection `A` (base URL `https://a.example`)
contributes `alpha1`, `alpha2`, `alpha3`, yet every merged document, theirs
included, carries collection `B`'s base URL `https://b.example`: provenance
is mixed up during the fan-in. -/
theorem c1_provenance_not_preserved :
    c1ChA.base_url = some "https://a.example"
    ∧ c1ChB.base_url = some "https://b.example"
    ∧ (run_extension [c1ChA, c1ChB] ⟨"q", 10⟩).2 = Except.ok
        [⟨"alpha1", q09, [], some "https://b.example"⟩,
         ⟨"alpha2", q07, [], some "https://b.example"⟩,
         ⟨"alpha3", q06, [], some "https://b.example"⟩,
         ⟨"beta1", q05, [], some "https://b.example"⟩] :=
  ⟨rfl, rfl, by decide⟩

/-- C2: whenever the operation returns a merged list, that list is sorted by
score descending (adjacent pairs satisfy `docGE`), its length is at most the
clamped `top_k`, and the sort used is stable: filtering any score class out
of the sorted candidates returns that class in original discovery order. -/
theorem c2_merge_sorted_bounded_stable (registry : List Channel)
    (req : DocumentRetrievalInput) (out : List DocWithScore)
    (docs : List DocWithScore) (s : ℚ)
    (h : (run_extension registry req).2 = Except.ok out) :
    List.Chain' docGE out
    ∧ out.length ≤ (clampTopK req.top_k).toNat
    ∧ (sortDocs docs).filter (fun e => decide (e.score = s))
        = docs.filter (fun e => decide (e.score = s)) := by
  obtain ⟨cr, -, rfl⟩ := run_extension_ok_eq registry req out h
  exact ⟨mergeAndRank_chain' _ _, mergeAndRank_length_le _ _,
    sortDocs_filter_score s docs⟩

/-- Witness for C2 at a concrete input: one collection returning four
documents with a score tie; the run succeeds and the conclusion holds with
the tie (`w1` before `w3`, and `x` before `z` in the filtered class) kept in
discovery order. -/
theorem c2_witness :
    (run_extension [c2Ch] ⟨"q", 5⟩).2 = Except.ok c2Out
    ∧ (List.Chain' docGE c2Out
       ∧ c2Out.length ≤ (clampTopK (5 : ℤ)).toNat
       ∧ (sortDocs c2Docs).filter (fun e => decide (e.score = q05))
           = c2Docs.filter (fun e => decide (e.score = q05))) :=
  ⟨by decide,
   c2_merge_sorted_bounded_stable [c2Ch] ⟨"q", 5⟩ c2Out c2Docs q05 (by decide)⟩

/-- C3: the effective `top_k` equals `max(1, min(top_k_requested, 15))`, is
always in `[1, 15]`, every issued similarity-search call carries exactly that
clamped `k`, and the performed store calls are precisely the issued calls'
arguments applied to the corresponding stores (the clamp happens at line 48,
before any call is created). -/
theorem c3_top_k_clamped (registry : List Channel)
    (req : DocumentRetrievalInput) :
    clampTopK req.top_k = max 1 (min req.top_k 15)
    ∧ 1 ≤ clampTopK req.top_k
    ∧ clampTopK req.top_k ≤ 15
    ∧ (issuedCalls registry req).map SearchCall.k
        = List.replicate registry.length (clampTopK req.top_k)
    ∧ storeResults registry req.query (clampTopK req.top_k)
        = List.zipWith (fun ch c => ch.store c.query c.k) registry
            (issuedCalls registry req) := by
  refine ⟨rfl, clampTopK_ge_one _, clampTopK_le_fifteen _, ?_, ?_⟩
  · induction registry with
    | nil => rfl
    | cons ch chs ih => simp [issuedCalls, List.replicate] at ih ⊢; exact ih
  · induction registry with
    | nil => rfl
    | cons ch chs ih => simp [issuedCalls, storeResults] at ih ⊢; exact ih

/-- C4: for a non-empty registry at least one call is issued, exactly one
call is created per registered collection (same length, matching ids, in
iteration order), all of them are in hand before the single `gather` await,
and `gather` succeeds with result list `vs` exactly when every issued call
succeeded with exactly those per-collection results, in order — the merge
never runs on a partial result set. -/
theorem c4_fan_out_fan_in (registry : List Channel)
    (req : DocumentRetrievalInput)
    (rs : List (Except String (List (Doc × ℚ)))) (vs : List (List (Doc × ℚ)))
    (h : registry ≠ []) :
    issuedCalls registry req ≠ []
    ∧ (issuedCalls registry req).length = registry.length
    ∧ (issuedCalls registry req).map SearchCall.channel_id
        = registry.map Channel.id
    ∧ (gatherResults rs = Except.ok vs ↔ rs = vs.map Except.ok) := by
  refine ⟨?_, ?_, ?_, gatherResults_eq_ok_iff rs vs⟩
  · simp [issuedCalls]; exact h
  · simp [issuedCalls]
  · simp [issuedCalls]

/-- Witness for C4 at a concrete input: a one-collection registry and a
concrete successful call list. -/
theorem c4_witness :
    ([c4Ch] : List Channel) ≠ []
    ∧ (issuedCalls [c4Ch] ⟨"q", 3⟩ ≠ []
       ∧ (issuedCalls [c4Ch] ⟨"q", 3⟩).length = ([c4Ch] : List Channel).length
       ∧ (issuedCalls [c4Ch] ⟨"q", 3⟩).map SearchCall.channel_id
           = ([c4Ch] : List Channel).map Channel.id
       ∧ (gatherResults (c4Results.map Except.ok) = Except.ok c4Results
          ↔ (c4Results.map Except.ok
              : List (Except String (List (Doc × ℚ))))
             = c4Results.map Except.ok)) :=
  ⟨List.cons_ne_nil _ _,
   c4_fan_out_fan_in [c4Ch] ⟨"q", 3⟩ (c4Results.map Except.ok) c4Results
     (List.cons_ne_nil _ _)⟩

/-- C5: the claim is FALSE on the code for merged candidate counts of 1 or 2:
the debug print at lines 72–75 unconditionally indexes `docs_with_score[1]`
and `[2]` whenever the list is non-empty, raising `IndexError`.  The
spec's own empty scenario (`{A: returns []}`, `top_k=5` → `[]`) does succeed,
but a single collection returning one document with `top_k=5` aborts instead
of returning that candidate. -/
theorem c5_underfull_result_errors :
    (run_extension [c5ChEmpty] ⟨"q", 5⟩).2 = Except.ok []
    ∧ (run_extension [c5ChOne] ⟨"q", 5⟩).2 = Except.error "IndexError" := by
  decide

/-- C6: the claim is FALSE on the code.  On the exact scenario
(`A` returns `[(d1, 0.9), (d2, 0.5)]`, `B` returns `[(d3, 0.8)]`,
`top_k = 2`) the code raises `IndexError` (the ranked list has length 2 and
the debug print reads index 2) instead of returning
`[d1(0.9, A), d3(0.8, B)]`; and even with the print bug sidestepped
(`top_k = 10`), `d1` carries `B`'s base URL, not `A`'s. -/
theorem c6_scenario_diverges :
    (run_extension [c6ChA, c6ChB] ⟨"q", 2⟩).2 = Except.error "IndexError"
    ∧ (run_extension [c6ChA, c6ChB] ⟨"q", 10⟩).2 = Except.ok
        [⟨"d1", q09, [], some "https://b.example"⟩,
         ⟨"d3", q08, [], some "https://b.example"⟩,
         ⟨"d2", q05, [], some "https://b.example"⟩] := by
  decide

/-- C7: if any collection's store call raises, the exception propagates
through `gather`: the whole request aborts with an error (no merged result),
and the propagated error payload is one of the store errors — no isolation,
no retry. -/
theorem c7_store_error_aborts (registry : List Channel)
    (req : DocumentRetrievalInput)
    (h : (storeResults registry req.query (clampTopK req.top_k)).any
          (fun r => (errOf r).isSome) = true) :
    (errOf (run_extension registry req).2).isSome = true
    ∧ errOf (run_extension registry req).2
        ∈ (storeResults registry req.query (clampTopK req.top_k)).map errOf := by
  obtain ⟨h1, h2⟩ := gatherResults_error_mem _ h
  simp only [run_extension]
  cases hg : gatherResults (storeResults registry req.query (clampTopK req.top_k)) with
  | error e =>
      rw [hg] at h2
      exact ⟨rfl, h2⟩
  | ok ws => rw [hg] at h1; simp [errOf] at h1

/-- Witness for C7 at a concrete input: a registry with one succeeding and
one raising collection; the request aborts with the raised error. -/
theorem c7_witness :
    (storeResults [c7Good, c7Bad] "q" (clampTopK 3)).any
        (fun r => (errOf r).isSome) = true
    ∧ ((errOf (run_extension [c7Good, c7Bad] ⟨"q", 3⟩).2).isSome = true
       ∧ errOf (run_extension [c7Good, c7Bad] ⟨"q", 3⟩).2
           ∈ (storeResults [c7Good, c7Bad] "q" (clampTopK 3)).map errOf) :=
  ⟨by decide, c7_store_error_aborts [c7Good, c7Bad] ⟨"q", 3⟩ (by decide)⟩

/-- C8: the operation is deterministic and idempotent on the request state:
re-running it on the very request object the first call mutated (the real
situation of "calling `search()` twice with identical input", since line 48
mutates the caller's object) produces the identical request state and the
identical output, ordering included. -/
theorem c8_deterministic_idempotent (registry : List Channel)
    (req : DocumentRetrievalInput) :
    run_extension registry ((run_extension registry req).1)
      = run_extension registry req := by
  simp [run_extension, clampTopK_idem]

/-- C9: the call mutates the caller's request object in place: afterwards its
`top_k` equals `max(1, min(original, 15))` while `query` is unchanged. -/
theorem c9_request_mutated (registry : List Channel)
    (req : DocumentRetrievalInput) :
    (run_extension registry req).1.top_k = max 1 (min req.top_k 15)
    ∧ (run_extension registry req).1.query = req.query :=
  ⟨rfl, rfl⟩

/-- C10: every `get_schema` call overwrites the shared class docstring with
the enumeration built from that call's channel list — after two successive
calls the state and the schema's embedded documentation reflect the second
call's channels only, whatever the initial state was — and the enumeration is
one `- name: description` line per channel. -/
theorem c10_docstring_overwritten (chs1 chs2 : List ChannelDesc)
    (st : String) :
    (get_schema chs2 (get_schema chs1 st).1).1 = docstringFor chs2
    ∧ ((get_schema chs2 (get_schema chs1 st).1).2).description
        = docstringFor chs2
    ∧ channel_info chs2
        = String.intercalate "\n"
            (chs2.map (fun c => "- " ++ c.name ++ ": " ++ c.description)) :=
  ⟨rfl, rfl, rfl⟩

end DocsExtension
